import Mathlib

/-!
A shallow embedding of the hill-climbing TSP search of `src/TSP2.0.py`.

The mutable module-level run state of the script (`current`, `current_dist`,
`best_dist`, `distance_history`, `iteration`, `stuck_counter`, `is_global`,
`local_optima_distances`) is modelled as an explicit record `RunState`.
Distances are modelled as elements of a linearly ordered field (instantiated
at `ℚ` for executable checks and at `ℝ` for the geometric scenario).
Randomness (the numpy global generator) is modelled as injected data: the
initial permutation and, for each candidate evaluation, the pair of indices
chosen by `np.random.choice`.
-/

set_option maxRecDepth 40000

namespace TSPHill

/-- The run state: one field per module-level mutable variable of the script. -/
structure RunState (α : Type) where
  current : List Nat
  current_dist : α
  best_dist : α
  distance_history : List α
  iteration : Nat
  stuck_counter : Nat
  is_global : Bool
  local_optima_distances : List α

variable {α : Type} [LinearOrderedField α]

/-- Embedding of `total_distance` (lines 13-18): sum of the edge lengths around the closed
cycle.  The pairwise city distance `d a b` abstracts
`np.linalg.norm(cities[a] - cities[b])` for the fixed city set. -/
def total_distance (d : Nat → Nat → α) (route : List Nat) : α :=
  (List.range route.length).foldl
    (fun acc i => acc + d (route.getD i 0) (route.getD ((i + 1) % route.length) 0)) 0

/-- Embedding of `two_opt_swap` (lines 20-24): the chosen pair `p` models the output of
`np.random.choice(len(r), 2, replace=False)`; the code sorts it, so we take
`i = min p, j = max p`, and reverse the closed slice `r[i : j+1]`. -/
def two_opt_swap (route : List Nat) (p : Nat × Nat) : List Nat :=
  route.take (min p.1 p.2) ++
    ((route.drop (min p.1 p.2)).take (max p.1 p.2 + 1 - min p.1 p.2)).reverse ++
    route.drop (max p.1 p.2 + 1)

/-- One candidate evaluation: the body of the `for _ in range(10)` loop of
`update` (lines 102-114).  The `Bool` component is the `improved` flag set on
line 109 (set exactly when `stuck_counter` is reset to 0 on line 108). -/
def evalCandidate (dist : List Nat → α) (sb : RunState α × Bool) (p : Nat × Nat) :
    RunState α × Bool :=
  if dist (two_opt_swap sb.1.current p) < sb.1.current_dist then
    if dist (two_opt_swap sb.1.current p) < sb.1.best_dist then
      ({ sb.1 with current := two_opt_swap sb.1.current p,
                   current_dist := dist (two_opt_swap sb.1.current p),
                   stuck_counter := 0,
                   best_dist := dist (two_opt_swap sb.1.current p),
                   is_global := false }, true)
    else
      ({ sb.1 with current := two_opt_swap sb.1.current p,
                   current_dist := dist (two_opt_swap sb.1.current p),
                   stuck_counter := 0 }, true)
  else
    ({ sb.1 with stuck_counter := sb.1.stuck_counter + 1 }, sb.2)

/-- The candidate batch of `update` (lines 101-114) followed by the
bookkeeping of lines 116-117 (`iteration += 1`,
`distance_history.append(current_dist)`).  `picks` holds one index pair per
loop iteration (the script uses exactly 10). -/
def postBatch (dist : List Nat → α) (picks : List (Nat × Nat)) (s : RunState α) :
    RunState α :=
  { (List.foldl (evalCandidate dist) (s, false) picks).1 with
      iteration := (List.foldl (evalCandidate dist) (s, false) picks).1.iteration + 1,
      distance_history :=
        (List.foldl (evalCandidate dist) (s, false) picks).1.distance_history ++
          [(List.foldl (evalCandidate dist) (s, false) picks).1.current_dist] }

/-- The Python builtin `min` over a (nonempty) list; the `[]` case is junk, the code
only evaluates `min` behind a nonemptiness guard (short-circuit `or`). -/
def listMin (l : List α) : α :=
  match l with
  | [] => 0
  | x :: xs => xs.foldl min x

/-- Line 121: `not local_optima_distances or current_dist < min(local_optima_distances)`. -/
def globalCheck (cd : α) (reg : List α) : Bool :=
  match reg with
  | [] => true
  | x :: xs => decide (cd < xs.foldl min x)

/-- Line 125: `not local_optima_distances or not any(abs(current_dist - d) < 1e-6 for d in ...)`. -/
def shouldRegister (eps cd : α) (reg : List α) : Bool :=
  reg.isEmpty || !(reg.any (fun d => decide (abs (cd - d) < eps)))

/-- Lines 120-126 of `update`: when stuck (`stuck_counter >= STUCK_THRESHOLD`)
set `is_global` by comparison against the registry minimum, then insert the
current distance unless some registry entry is within tolerance `eps`. -/
def registerPhase (T : Nat) (eps : α) (s : RunState α) : RunState α :=
  if T ≤ s.stuck_counter then
    if shouldRegister eps s.current_dist s.local_optima_distances then
      { s with is_global := globalCheck s.current_dist s.local_optima_distances,
               local_optima_distances :=
                 s.local_optima_distances ++ [s.current_dist] }
    else
      { s with is_global := globalCheck s.current_dist s.local_optima_distances }
  else s

/-- Embedding of `update` (lines 98-126), the per-frame step: the candidate batch and
bookkeeping, then the stuck-regime classification/registration.  Plot and
text updates (lines 128-165) touch no run state and are omitted. -/
def update (dist : List Nat → α) (T : Nat) (eps : α) (picks : List (Nat × Nat))
    (s : RunState α) : RunState α :=
  registerPhase T eps (postBatch dist picks s)

/-- The four classifier outcomes of `get_status` (first component of the
returned tuples: "improving", "searching", "local", "global"). -/
inductive Status
  | improving
  | searching
  | localOpt
  | globalOpt
  deriving DecidableEq

/-- Embedding of `get_status` (lines 79-91). -/
def get_status (T : Nat) (s : RunState α) : Status :=
  if s.stuck_counter = 0 then Status.improving
  else if s.stuck_counter < T then Status.searching
  else if s.is_global then Status.globalOpt
  else Status.localOpt

/-- Embedding of `STUCK_THRESHOLD` (line 35). -/
def STUCK_THRESHOLD : Nat := 50

/-- The module-level initialisation (lines 28-37): `perm` models
`np.random.permutation(N)`. -/
def initState (dist : List Nat → α) (perm : List Nat) : RunState α :=
  { current := perm
    current_dist := dist perm
    best_dist := dist perm
    distance_history := [dist perm]
    iteration := 0
    stuck_counter := 0
    is_global := false
    local_optima_distances := [] }

/-- Embedding of `restart` (lines 172-180): re-randomise the tour, recompute
`current_dist`, clear the history to one entry, zero `iteration` and
`stuck_counter`.  The script leaves `best_dist`, `is_global` and
`local_optima_distances` untouched. -/
def restart (dist : List Nat → α) (perm : List Nat) (s : RunState α) : RunState α :=
  { s with current := perm
           current_dist := dist perm
           distance_history := [dist perm]
           iteration := 0
           stuck_counter := 0 }

/-- Iterates `update` a number of times, the same injected picks at every frame. -/
def stepN (dist : List Nat → α) (T : Nat) (eps : α) (picks : List (Nat × Nat)) :
    Nat → RunState α → RunState α
  | 0, s => s
  | n + 1, s => stepN dist T eps picks n (update dist T eps picks s)

/-- A sequence of `update` calls with per-frame injected picks. -/
def runSteps (dist : List Nat → α) (T : Nat) (eps : α)
    (batches : List (List (Nat × Nat))) (s : RunState α) : RunState α :=
  batches.foldl (fun s picks => update dist T eps picks s) s

/-- States reachable from process start: the initial state (with the initial
tour a permutation of `0..N-1`, as `np.random.permutation` guarantees),
closed under `update` steps and `restart`. -/
inductive Reachable (dist : List Nat → α) (N T : Nat) (eps : α) : RunState α → Prop
  | init : ∀ perm : List Nat, perm.Perm (List.range N) →
      Reachable dist N T eps (initState dist perm)
  | step : ∀ (picks : List (Nat × Nat)) (s : RunState α), Reachable dist N T eps s →
      Reachable dist N T eps (update dist T eps picks s)
  | reset : ∀ (perm : List Nat) (s : RunState α), perm.Perm (List.range N) →
      Reachable dist N T eps s → Reachable dist N T eps (restart dist perm s)

/-- A 2-opt segment reversal permutes the route (line 23 only reverses a
slice in place). -/
lemma two_opt_swap_perm (r : List Nat) (p : Nat × Nat) :
    (two_opt_swap r p).Perm r := by
  unfold two_opt_swap
  have hij : min p.1 p.2 ≤ max p.1 p.2 + 1 := le_trans (min_le_max) (Nat.le_succ _)
  have hsplit : (r.drop (min p.1 p.2)).take (max p.1 p.2 + 1 - min p.1 p.2) ++
      r.drop (max p.1 p.2 + 1) = r.drop (min p.1 p.2) := by
    have h1 := List.take_append_drop (max p.1 p.2 + 1 - min p.1 p.2) (r.drop (min p.1 p.2))
    rw [List.drop_drop] at h1
    have h2 : min p.1 p.2 + (max p.1 p.2 + 1 - min p.1 p.2) = max p.1 p.2 + 1 := by omega
    rw [h2] at h1
    exact h1
  rw [List.append_assoc]
  have hperm :
      (((r.drop (min p.1 p.2)).take (max p.1 p.2 + 1 - min p.1 p.2)).reverse ++
        r.drop (max p.1 p.2 + 1)).Perm
      ((r.drop (min p.1 p.2)).take (max p.1 p.2 + 1 - min p.1 p.2) ++
        r.drop (max p.1 p.2 + 1)) :=
    List.Perm.append_right _ (List.reverse_perm _)
  have hmain := List.Perm.append_left (r.take (min p.1 p.2)) hperm
  rw [hsplit, List.take_append_drop] at hmain
  exact hmain

/-- Fields of the run state that a single candidate evaluation leaves
untouched, plus the one-sided bounds it guarantees. -/
lemma evalCandidate_fields (dist : List Nat → α) (sb : RunState α × Bool)
    (p : Nat × Nat) :
    (evalCandidate dist sb p).1.local_optima_distances = sb.1.local_optima_distances ∧
    (evalCandidate dist sb p).1.iteration = sb.1.iteration ∧
    (evalCandidate dist sb p).1.distance_history = sb.1.distance_history ∧
    (evalCandidate dist sb p).1.best_dist ≤ sb.1.best_dist ∧
    (evalCandidate dist sb p).1.current_dist ≤ sb.1.current_dist ∧
    (evalCandidate dist sb p).1.current.Perm sb.1.current := by
  unfold evalCandidate
  split_ifs with h1 h2
  · exact ⟨rfl, rfl, rfl, le_of_lt h2, le_of_lt h1, two_opt_swap_perm _ _⟩
  · exact ⟨rfl, rfl, rfl, le_refl _, le_of_lt h1, two_opt_swap_perm _ _⟩
  · exact ⟨rfl, rfl, rfl, le_refl _, le_refl _, List.Perm.refl _⟩

/-- The same preservation facts for a whole candidate batch. -/
lemma batch_fields (dist : List Nat → α) (picks : List (Nat × Nat)) :
    ∀ sb : RunState α × Bool,
      (List.foldl (evalCandidate dist) sb picks).1.local_optima_distances =
        sb.1.local_optima_distances ∧
      (List.foldl (evalCandidate dist) sb picks).1.iteration = sb.1.iteration ∧
      (List.foldl (evalCandidate dist) sb picks).1.distance_history =
        sb.1.distance_history ∧
      (List.foldl (evalCandidate dist) sb picks).1.best_dist ≤ sb.1.best_dist ∧
      (List.foldl (evalCandidate dist) sb picks).1.current_dist ≤ sb.1.current_dist ∧
      (List.foldl (evalCandidate dist) sb picks).1.current.Perm sb.1.current := by
  induction picks with
  | nil =>
      intro sb
      exact ⟨rfl, rfl, rfl, le_refl _, le_refl _, List.Perm.refl _⟩
  | cons p ps ih =>
      intro sb
      obtain ⟨e1, e2, e3, e4, e5, e6⟩ := evalCandidate_fields dist sb p
      obtain ⟨f1, f2, f3, f4, f5, f6⟩ := ih (evalCandidate dist sb p)
      rw [List.foldl_cons]
      exact ⟨f1.trans e1, f2.trans e2, f3.trans e3, le_trans f4 e4, le_trans f5 e5,
        f6.trans e6⟩

/-- Fields the stuck-regime phase (lines 120-126) leaves untouched. -/
lemma registerPhase_fields (T : Nat) (eps : α) (s : RunState α) :
    (registerPhase T eps s).current = s.current ∧
    (registerPhase T eps s).current_dist = s.current_dist ∧
    (registerPhase T eps s).best_dist = s.best_dist ∧
    (registerPhase T eps s).stuck_counter = s.stuck_counter ∧
    (registerPhase T eps s).iteration = s.iteration ∧
    (registerPhase T eps s).distance_history = s.distance_history := by
  unfold registerPhase
  split_ifs with h1 h2
  · exact ⟨rfl, rfl, rfl, rfl, rfl, rfl⟩
  · exact ⟨rfl, rfl, rfl, rfl, rfl, rfl⟩
  · exact ⟨rfl, rfl, rfl, rfl, rfl, rfl⟩

/-- In the stuck regime `is_global` is recomputed from the (pre-insertion)
registry, whatever the insertion decision is. -/
lemma registerPhase_is_global_of_stuck (T : Nat) (eps : α) (s : RunState α)
    (h : T ≤ s.stuck_counter) :
    (registerPhase T eps s).is_global =
      globalCheck s.current_dist s.local_optima_distances := by
  unfold registerPhase
  rw [if_pos h]
  split_ifs <;> rfl

/-- Outside the stuck regime the classification phase is the identity. -/
lemma registerPhase_of_not_stuck (T : Nat) (eps : α) (s : RunState α)
    (h : ¬ T ≤ s.stuck_counter) : registerPhase T eps s = s := by
  unfold registerPhase
  rw [if_neg h]

/-- Registry evolution in the stuck regime: append when the tolerance check
passes, unchanged otherwise. -/
lemma registerPhase_registry_of_stuck (T : Nat) (eps : α) (s : RunState α)
    (h : T ≤ s.stuck_counter) :
    (registerPhase T eps s).local_optima_distances =
      (if shouldRegister eps s.current_dist s.local_optima_distances then
        s.local_optima_distances ++ [s.current_dist]
      else s.local_optima_distances) := by
  unfold registerPhase
  rw [if_pos h]
  split_ifs <;> rfl

/-- The tolerance guard of line 125, in propositional form. -/
lemma shouldRegister_eq_true_iff (eps cd : α) (reg : List α) :
    shouldRegister eps cd reg = true ↔ ∀ d ∈ reg, ¬ (abs (cd - d) < eps) := by
  unfold shouldRegister
  cases reg with
  | nil => simp
  | cons x xs => simp

/-- The global-so-far test of line 121, in propositional form. -/
lemma globalCheck_eq_true_iff (cd : α) (reg : List α) :
    globalCheck cd reg = true ↔ (reg = [] ∨ cd < listMin reg) := by
  unfold globalCheck listMin
  cases reg with
  | nil => simp
  | cons x xs => simp

/-- A rejected candidate (the `else` of line 113) only increments the stuck
counter. -/
lemma evalCandidate_reject (dist : List Nat → α) (s : RunState α) (b : Bool)
    (p : Nat × Nat) (h : ¬ dist (two_opt_swap s.current p) < s.current_dist) :
    evalCandidate dist (s, b) p =
      ({ s with stuck_counter := s.stuck_counter + 1 }, b) := by
  unfold evalCandidate
  dsimp only
  rw [if_neg h]

/-- If every candidate of a batch is rejected (all are tested against the
unchanged baseline), the whole batch only adds the batch size to the stuck
counter. -/
lemma batch_all_rejected (dist : List Nat → α) (picks : List (Nat × Nat)) :
    ∀ (s : RunState α) (b : Bool),
      (∀ p ∈ picks, ¬ dist (two_opt_swap s.current p) < s.current_dist) →
      List.foldl (evalCandidate dist) (s, b) picks =
        ({ s with stuck_counter := s.stuck_counter + picks.length }, b) := by
  induction picks with
  | nil =>
      intro s b _
      rfl
  | cons p ps ih =>
      intro s b h
      have h2 := ih ({ s with stuck_counter := s.stuck_counter + 1 }) b
        (fun q hq => h q (List.mem_cons_of_mem p hq))
      rw [List.foldl_cons, evalCandidate_reject dist s b p (h p (List.mem_cons_self p ps)), h2]
      have harith : s.stuck_counter + 1 + ps.length = s.stuck_counter + (p :: ps).length := by
        simp only [List.length_cons]
        omega
      exact congrArg (fun n => (({ s with stuck_counter := n } : RunState α), b)) harith

/-- The `improved` flag: it is monotone along a batch, and starting from
`false` it ends `true` exactly when the batch strictly decreased
`current_dist`. -/
lemma batch_flag (dist : List Nat → α) (picks : List (Nat × Nat)) :
    ∀ (s : RunState α) (b : Bool),
      (b = true → (List.foldl (evalCandidate dist) (s, b) picks).2 = true) ∧
      (b = false →
        ((List.foldl (evalCandidate dist) (s, b) picks).1.current_dist < s.current_dist ↔
          (List.foldl (evalCandidate dist) (s, b) picks).2 = true)) := by
  induction picks with
  | nil =>
      intro s b
      refine ⟨fun hb => hb, fun hb => ?_⟩
      subst hb
      simp
  | cons p ps ih =>
      intro s b
      rw [List.foldl_cons]
      by_cases h1 : dist (two_opt_swap s.current p) < s.current_dist
      · have hacc : ∃ s1 : RunState α, evalCandidate dist (s, b) p = (s1, true) ∧
            s1.current_dist = dist (two_opt_swap s.current p) := by
          unfold evalCandidate
          dsimp only
          rw [if_pos h1]
          split_ifs with h2
          · exact ⟨_, rfl, rfl⟩
          · exact ⟨_, rfl, rfl⟩
        obtain ⟨s1, he, hcd⟩ := hacc
        rw [he]
        have hflag : (List.foldl (evalCandidate dist) (s1, true) ps).2 = true :=
          (ih s1 true).1 rfl
        have hle : (List.foldl (evalCandidate dist) (s1, true) ps).1.current_dist ≤
            s1.current_dist := (batch_fields dist ps (s1, true)).2.2.2.2.1
        rw [hcd] at hle
        have hlt : (List.foldl (evalCandidate dist) (s1, true) ps).1.current_dist <
            s.current_dist := lt_of_le_of_lt hle h1
        exact ⟨fun _ => hflag, fun _ => ⟨fun _ => hflag, fun _ => hlt⟩⟩
      · rw [evalCandidate_reject dist s b p h1]
        exact ih { s with stuck_counter := s.stuck_counter + 1 } b

/-- The classification/registration phase does not move `current`. -/
lemma update_current (dist : List Nat → α) (T : Nat) (eps : α)
    (picks : List (Nat × Nat)) (s : RunState α) :
    (update dist T eps picks s).current =
      (List.foldl (evalCandidate dist) (s, false) picks).1.current :=
  (registerPhase_fields T eps (postBatch dist picks s)).1

/-- The field `current_dist` after `update` is the final batch value. -/
lemma update_current_dist (dist : List Nat → α) (T : Nat) (eps : α)
    (picks : List (Nat × Nat)) (s : RunState α) :
    (update dist T eps picks s).current_dist =
      (List.foldl (evalCandidate dist) (s, false) picks).1.current_dist :=
  (registerPhase_fields T eps (postBatch dist picks s)).2.1

/-- The field `best_dist` after `update` is the final batch value. -/
lemma update_best_dist (dist : List Nat → α) (T : Nat) (eps : α)
    (picks : List (Nat × Nat)) (s : RunState α) :
    (update dist T eps picks s).best_dist =
      (List.foldl (evalCandidate dist) (s, false) picks).1.best_dist :=
  (registerPhase_fields T eps (postBatch dist picks s)).2.2.1

/-- The field `stuck_counter` after `update` is the final batch value. -/
lemma update_stuck (dist : List Nat → α) (T : Nat) (eps : α)
    (picks : List (Nat × Nat)) (s : RunState α) :
    (update dist T eps picks s).stuck_counter =
      (List.foldl (evalCandidate dist) (s, false) picks).1.stuck_counter :=
  (registerPhase_fields T eps (postBatch dist picks s)).2.2.2.1

/-- Neither the batch nor the bookkeeping of a step touches the registry. -/
lemma postBatch_registry (dist : List Nat → α) (picks : List (Nat × Nat))
    (s : RunState α) :
    (postBatch dist picks s).local_optima_distances = s.local_optima_distances :=
  (batch_fields dist picks (s, false)).1

/-- One `update` never increases `best_dist`. -/
lemma update_best_le (dist : List Nat → α) (T : Nat) (eps : α)
    (picks : List (Nat × Nat)) (s : RunState α) :
    (update dist T eps picks s).best_dist ≤ s.best_dist := by
  rw [update_best_dist]
  exact (batch_fields dist picks (s, false)).2.2.2.1

/-- The field `best_dist` is non-increasing along any sequence of steps. -/
lemma runSteps_best_le (dist : List Nat → α) (T : Nat) (eps : α) :
    ∀ (batches : List (List (Nat × Nat))) (s : RunState α),
      (runSteps dist T eps batches s).best_dist ≤ s.best_dist := by
  intro batches
  induction batches with
  | nil => intro s; exact le_refl _
  | cons b bs ih =>
      intro s
      unfold runSteps
      rw [List.foldl_cons]
      exact le_trans (ih (update dist T eps b s)) (update_best_le dist T eps b s)

/-- A constant distance function (every tour has length 1), used to build
concrete witness runs. -/
def exDist1 : List Nat → ℚ := fun _ => 1

/-- A two-valued distance function used to build a concrete run that gets
stuck after one improvement. -/
def exDist2 : List Nat → ℚ := fun r => if r = [0, 1] then 2 else 1

/-- The injected picks of one batch: the script draws 10 candidate pairs per
frame. -/
def exPicks : List (Nat × Nat) := List.replicate 10 (0, 1)

/-- Initial state of the constant-distance witness run. -/
def exState : RunState ℚ := initState exDist1 [0, 1]

/-- Six frames of the two-city run under `exDist2`: the first candidate of
frame 1 improves `[0,1] ↦ [1,0]` (distance 2 ↦ 1), everything after is
rejected, so frame 6 ends with `stuck_counter = 59 ≥ 50`, classifies the
optimum as global and registers distance 1. -/
def exStep : RunState ℚ → RunState ℚ :=
  update exDist2 STUCK_THRESHOLD (1 / 1000000) exPicks

def exRun : RunState ℚ :=
  exStep (exStep (exStep (exStep (exStep (exStep (initState exDist2 [0, 1]))))))

/-- C1, counterexample: `restart()` does not reset everything.  After a run
that has set `best_dist = 1`, `is_global = true` and registered the optimum
`1`, restarting onto the tour `[0,1]` (new `current_dist = 2`) leaves
`best_dist = 1` (not recomputed to 2), `is_global = true` (not cleared) and
the registry still `[1]` (not emptied), contradicting the claim. -/
theorem claim_C1_counterexample :
    (restart exDist2 [0, 1] exRun).is_global = true ∧
    (restart exDist2 [0, 1] exRun).local_optima_distances = [1] ∧
    (restart exDist2 [0, 1] exRun).best_dist = 1 ∧
    (restart exDist2 [0, 1] exRun).current_dist = 2 := by
  decide

/-- C1 (amended): after `restart()`, `iteration = 0`, `stuck_counter = 0`,
the history is exactly one entry equal to the new `current_dist`, and the
tour and its distance are recomputed from the new random permutation; but
`best_dist`, `is_global` and the optima registry are left unchanged from
before the restart. -/
theorem claim_C1 {β : Type} (dist : List Nat → β) (perm : List Nat) (s : RunState β) :
    (restart dist perm s).iteration = 0 ∧
    (restart dist perm s).stuck_counter = 0 ∧
    (restart dist perm s).distance_history = [(restart dist perm s).current_dist] ∧
    (restart dist perm s).current = perm ∧
    (restart dist perm s).current_dist = dist perm ∧
    (restart dist perm s).best_dist = s.best_dist ∧
    (restart dist perm s).is_global = s.is_global ∧
    (restart dist perm s).local_optima_distances = s.local_optima_distances :=
  ⟨rfl, rfl, rfl, rfl, rfl, rfl, rfl, rfl⟩

/-- C3: on a step whose batch ends with `stuck_counter ≥ T`, `is_global` is
set to exactly "(registry is empty) or (current distance < min registry)",
where the registry is the one from before the insertion of this step. -/
theorem claim_C3 (dist : List Nat → α) (T : Nat) (eps : α)
    (picks : List (Nat × Nat)) (s : RunState α)
    (h : T ≤ (postBatch dist picks s).stuck_counter) :
    (update dist T eps picks s).is_global = true ↔
      (s.local_optima_distances = [] ∨
        (postBatch dist picks s).current_dist < listMin s.local_optima_distances) := by
  show (registerPhase T eps (postBatch dist picks s)).is_global = true ↔ _
  rw [registerPhase_is_global_of_stuck T eps (postBatch dist picks s) h,
    postBatch_registry]
  exact globalCheck_eq_true_iff _ _

/-- C3, witness at a concrete input: constant distances, one candidate per
batch, threshold 1. -/
theorem claim_C3_witness :
    (1 ≤ (postBatch exDist1 [(0, 1)] exState).stuck_counter) ∧
    ((update exDist1 1 (1 / 1000000) [(0, 1)] exState).is_global = true ↔
      (exState.local_optima_distances = [] ∨
        (postBatch exDist1 [(0, 1)] exState).current_dist <
          listMin exState.local_optima_distances)) :=
  ⟨by decide, claim_C3 exDist1 1 (1 / 1000000) [(0, 1)] exState (by decide)⟩

/-- C4: every reachable tour is a permutation of `0..N-1`, and perturbing it
with `two_opt_swap` again yields a permutation of `0..N-1`. -/
theorem claim_C4 (dist : List Nat → α) (N T : Nat) (eps : α) (s : RunState α)
    (hs : Reachable dist N T eps s) :
    s.current.Perm (List.range N) ∧
    (∀ p : Nat × Nat, (two_opt_swap s.current p).Perm (List.range N)) ∧
    (∀ (r : List Nat) (p : Nat × Nat), r.Perm (List.range N) →
      (two_opt_swap r p).Perm (List.range N)) := by
  have hcur : s.current.Perm (List.range N) := by
    induction hs with
    | init perm hp => exact hp
    | step picks t ht ih =>
        rw [update_current]
        exact ((batch_fields dist picks (t, false)).2.2.2.2.2).trans ih
    | reset perm t hp ht ih => exact hp
  exact ⟨hcur, fun p => (two_opt_swap_perm _ p).trans hcur,
    fun r p hr => (two_opt_swap_perm r p).trans hr⟩

/-- C4, witness: the initial state on two cities. -/
theorem claim_C4_witness :
    (initState exDist1 [0, 1]).current.Perm (List.range 2) ∧
    (∀ p : Nat × Nat,
      (two_opt_swap (initState exDist1 [0, 1]).current p).Perm (List.range 2)) ∧
    (∀ (r : List Nat) (p : Nat × Nat), r.Perm (List.range 2) →
      (two_opt_swap r p).Perm (List.range 2)) :=
  claim_C4 exDist1 2 50 (1 / 1000000) _ (Reachable.init [0, 1] (by decide))

/-- C5: a step never increases `current_dist`; it strictly decreases exactly
when the `improved` flag was set, i.e. exactly when some candidate was
accepted and `stuck_counter` was reset to 0 (lines 107-109 reset the counter
and set the flag together); and a tying candidate is rejected, leaving the
tour unchanged and incrementing the stuck counter. -/
theorem claim_C5 (dist : List Nat → α) (T : Nat) (eps : α)
    (picks : List (Nat × Nat)) (s : RunState α) :
    (update dist T eps picks s).current_dist ≤ s.current_dist ∧
    ((update dist T eps picks s).current_dist < s.current_dist ↔
      (List.foldl (evalCandidate dist) (s, false) picks).2 = true) ∧
    (∀ (t : RunState α) (b : Bool) (p : Nat × Nat),
      dist (two_opt_swap t.current p) = t.current_dist →
        evalCandidate dist (t, b) p =
          ({ t with stuck_counter := t.stuck_counter + 1 }, b)) := by
  refine ⟨?_, ?_, ?_⟩
  · rw [update_current_dist]
    exact (batch_fields dist picks (s, false)).2.2.2.2.1
  · rw [update_current_dist]
    exact (batch_flag dist picks s false).2 rfl
  · intro t b p hp
    exact evalCandidate_reject dist t b p (by rw [hp]; exact lt_irrefl _)

/-- C5, witness at a concrete input. -/
theorem claim_C5_witness :
    (update exDist1 50 (1 / 1000000) [(0, 1)] exState).current_dist ≤
      exState.current_dist ∧
    ((update exDist1 50 (1 / 1000000) [(0, 1)] exState).current_dist <
        exState.current_dist ↔
      (List.foldl (evalCandidate exDist1) (exState, false) [(0, 1)]).2 = true) ∧
    (∀ (t : RunState ℚ) (b : Bool) (p : Nat × Nat),
      exDist1 (two_opt_swap t.current p) = t.current_dist →
        evalCandidate exDist1 (t, b) p =
          ({ t with stuck_counter := t.stuck_counter + 1 }, b)) :=
  claim_C5 exDist1 50 (1 / 1000000) [(0, 1)] exState

/-- C6: `best_dist` is non-increasing, both across one `update` and across
any sequence of `update` calls within a run (no restart in between). -/
theorem claim_C6 (dist : List Nat → α) (T : Nat) (eps : α)
    (picks : List (Nat × Nat)) (batches : List (List (Nat × Nat))) (s : RunState α) :
    (update dist T eps picks s).best_dist ≤ s.best_dist ∧
    (runSteps dist T eps batches s).best_dist ≤ s.best_dist :=
  ⟨update_best_le dist T eps picks s, runSteps_best_le dist T eps batches s⟩

/-- C7: a batch whose candidates are all rejected adds exactly its size to
`stuck_counter`; an accepted candidate resets the counter to 0; and each
rejected candidate increments it by exactly 1. -/
theorem claim_C7 (dist : List Nat → α) (picks : List (Nat × Nat)) (s : RunState α) :
    ((∀ p ∈ picks, ¬ dist (two_opt_swap s.current p) < s.current_dist) →
      (List.foldl (evalCandidate dist) (s, false) picks).1.stuck_counter =
        s.stuck_counter + picks.length) ∧
    (∀ (t : RunState α) (b : Bool) (p : Nat × Nat),
      dist (two_opt_swap t.current p) < t.current_dist →
        (evalCandidate dist (t, b) p).1.stuck_counter = 0) ∧
    (∀ (t : RunState α) (b : Bool) (p : Nat × Nat),
      ¬ dist (two_opt_swap t.current p) < t.current_dist →
        (evalCandidate dist (t, b) p).1.stuck_counter = t.stuck_counter + 1) := by
  refine ⟨?_, ?_, ?_⟩
  · intro h
    rw [batch_all_rejected dist picks s false h]
  · intro t b p h
    unfold evalCandidate
    dsimp only
    rw [if_pos h]
    split_ifs <;> rfl
  · intro t b p h
    rw [evalCandidate_reject dist t b p h]

/-- C7, witness at a concrete input. -/
theorem claim_C7_witness :
    ((∀ p ∈ exPicks, ¬ exDist1 (two_opt_swap exState.current p) < exState.current_dist) →
      (List.foldl (evalCandidate exDist1) (exState, false) exPicks).1.stuck_counter =
        exState.stuck_counter + exPicks.length) ∧
    (∀ (t : RunState ℚ) (b : Bool) (p : Nat × Nat),
      exDist1 (two_opt_swap t.current p) < t.current_dist →
        (evalCandidate exDist1 (t, b) p).1.stuck_counter = 0) ∧
    (∀ (t : RunState ℚ) (b : Bool) (p : Nat × Nat),
      ¬ exDist1 (two_opt_swap t.current p) < t.current_dist →
        (evalCandidate exDist1 (t, b) p).1.stuck_counter = t.stuck_counter + 1) :=
  claim_C7 exDist1 exPicks exState

/-- Characterisation of `get_status` as a pure function of `(stuck_counter, is_global)`: the four
labels are characterised (and hence mutually exclusive and exhaustive). -/
lemma get_status_cases {β : Type} (T : Nat) (hT : 0 < T) (u : RunState β) :
    (get_status T u = Status.improving ↔ u.stuck_counter = 0) ∧
    (get_status T u = Status.searching ↔
      (0 < u.stuck_counter ∧ u.stuck_counter < T)) ∧
    (get_status T u = Status.globalOpt ↔
      (T ≤ u.stuck_counter ∧ u.is_global = true)) ∧
    (get_status T u = Status.localOpt ↔
      (T ≤ u.stuck_counter ∧ u.is_global = false)) := by
  unfold get_status
  split_ifs with h0 h1 h2
  · exact ⟨⟨fun _ => h0, fun _ => rfl⟩,
      ⟨fun hh => absurd hh (by decide), fun hh => absurd hh.1 (by omega)⟩,
      ⟨fun hh => absurd hh (by decide), fun hh => absurd hh.1 (by omega)⟩,
      ⟨fun hh => absurd hh (by decide), fun hh => absurd hh.1 (by omega)⟩⟩
  · exact ⟨⟨fun hh => absurd hh (by decide), fun hh => absurd hh h0⟩,
      ⟨fun _ => ⟨Nat.pos_of_ne_zero h0, h1⟩, fun _ => rfl⟩,
      ⟨fun hh => absurd hh (by decide), fun hh => absurd hh.1 (by omega)⟩,
      ⟨fun hh => absurd hh (by decide), fun hh => absurd hh.1 (by omega)⟩⟩
  · exact ⟨⟨fun hh => absurd hh (by decide), fun hh => absurd hh h0⟩,
      ⟨fun hh => absurd hh (by decide), fun hh => absurd hh.2 h1⟩,
      ⟨fun _ => ⟨by omega, h2⟩, fun _ => rfl⟩,
      ⟨fun hh => absurd hh (by decide), fun hh => Bool.noConfusion (hh.2 ▸ h2)⟩⟩
  · have hig : u.is_global = false := by
      revert h2
      cases u.is_global <;> simp
    exact ⟨⟨fun hh => absurd hh (by decide), fun hh => absurd hh h0⟩,
      ⟨fun hh => absurd hh (by decide), fun hh => absurd hh.2 h1⟩,
      ⟨fun hh => absurd hh (by decide), fun hh => Bool.noConfusion (hig ▸ hh.2)⟩,
      ⟨fun _ => ⟨by omega, hig⟩, fun _ => rfl⟩⟩

/-- C8: after any `step()` the classifier label is exactly one of the four
states, determined from `(stuck_counter, is_global)` by the documented
thresholds (for a positive threshold `T`; the script uses `T = 50`). -/
theorem claim_C8 (dist : List Nat → α) (T : Nat) (eps : α)
    (picks : List (Nat × Nat)) (s : RunState α) (hT : 0 < T) :
    (get_status T (update dist T eps picks s) = Status.improving ↔
      (update dist T eps picks s).stuck_counter = 0) ∧
    (get_status T (update dist T eps picks s) = Status.searching ↔
      (0 < (update dist T eps picks s).stuck_counter ∧
        (update dist T eps picks s).stuck_counter < T)) ∧
    (get_status T (update dist T eps picks s) = Status.globalOpt ↔
      (T ≤ (update dist T eps picks s).stuck_counter ∧
        (update dist T eps picks s).is_global = true)) ∧
    (get_status T (update dist T eps picks s) = Status.localOpt ↔
      (T ≤ (update dist T eps picks s).stuck_counter ∧
        (update dist T eps picks s).is_global = false)) :=
  get_status_cases T hT (update dist T eps picks s)

/-- C8, witness at a concrete input. -/
theorem claim_C8_witness :
    (0 < 50) ∧
    ((get_status 50 (update exDist1 50 (1 / 1000000) exPicks exState) = Status.improving ↔
      (update exDist1 50 (1 / 1000000) exPicks exState).stuck_counter = 0) ∧
    (get_status 50 (update exDist1 50 (1 / 1000000) exPicks exState) = Status.searching ↔
      (0 < (update exDist1 50 (1 / 1000000) exPicks exState).stuck_counter ∧
        (update exDist1 50 (1 / 1000000) exPicks exState).stuck_counter < 50)) ∧
    (get_status 50 (update exDist1 50 (1 / 1000000) exPicks exState) = Status.globalOpt ↔
      (50 ≤ (update exDist1 50 (1 / 1000000) exPicks exState).stuck_counter ∧
        (update exDist1 50 (1 / 1000000) exPicks exState).is_global = true)) ∧
    (get_status 50 (update exDist1 50 (1 / 1000000) exPicks exState) = Status.localOpt ↔
      (50 ≤ (update exDist1 50 (1 / 1000000) exPicks exState).stuck_counter ∧
        (update exDist1 50 (1 / 1000000) exPicks exState).is_global = false))) :=
  ⟨by decide, claim_C8 exDist1 50 (1 / 1000000) exPicks exState (by decide)⟩

/-- C9: on a stuck step, the batch-final `current_dist` is appended to the
registry exactly when no existing entry is within absolute tolerance `1e-6`
of it; otherwise the registry is unchanged. -/
theorem claim_C9 (dist : List Nat → α) (T : Nat) (picks : List (Nat × Nat))
    (s : RunState α) (h : T ≤ (postBatch dist picks s).stuck_counter) :
    ((∀ d ∈ s.local_optima_distances,
        ¬ (abs ((postBatch dist picks s).current_dist - d) < (1 / 1000000 : α))) →
      (update dist T (1 / 1000000) picks s).local_optima_distances =
        s.local_optima_distances ++ [(postBatch dist picks s).current_dist]) ∧
    ((∃ d ∈ s.local_optima_distances,
        abs ((postBatch dist picks s).current_dist - d) < (1 / 1000000 : α)) →
      (update dist T (1 / 1000000) picks s).local_optima_distances =
        s.local_optima_distances) := by
  have hreg := registerPhase_registry_of_stuck T (1 / 1000000 : α) (postBatch dist picks s) h
  have hpreg := postBatch_registry dist picks s
  constructor
  · intro hall
    have hsr : shouldRegister (1 / 1000000 : α) (postBatch dist picks s).current_dist
        (postBatch dist picks s).local_optima_distances = true := by
      rw [shouldRegister_eq_true_iff, hpreg]
      exact hall
    show (registerPhase T (1 / 1000000 : α) (postBatch dist picks s)).local_optima_distances = _
    rw [hreg, if_pos hsr, hpreg]
  · intro hex
    obtain ⟨d, hd, hlt⟩ := hex
    have hsr : ¬ shouldRegister (1 / 1000000 : α) (postBatch dist picks s).current_dist
        (postBatch dist picks s).local_optima_distances = true := by
      rw [shouldRegister_eq_true_iff, hpreg]
      intro hall
      exact (hall d hd) hlt
    show (registerPhase T (1 / 1000000 : α) (postBatch dist picks s)).local_optima_distances = _
    rw [hreg, if_neg hsr, hpreg]

/-- C9, witness at a concrete input (empty registry, so the first implication
fires and inserts). -/
theorem claim_C9_witness :
    (1 ≤ (postBatch exDist1 [(0, 1)] exState).stuck_counter) ∧
    (((∀ d ∈ exState.local_optima_distances,
        ¬ (abs ((postBatch exDist1 [(0, 1)] exState).current_dist - d) < (1 / 1000000 : ℚ))) →
      (update exDist1 1 (1 / 1000000) [(0, 1)] exState).local_optima_distances =
        exState.local_optima_distances ++ [(postBatch exDist1 [(0, 1)] exState).current_dist]) ∧
    ((∃ d ∈ exState.local_optima_distances,
        abs ((postBatch exDist1 [(0, 1)] exState).current_dist - d) < (1 / 1000000 : ℚ)) →
      (update exDist1 1 (1 / 1000000) [(0, 1)] exState).local_optima_distances =
        exState.local_optima_distances)) :=
  ⟨by decide, claim_C9 exDist1 1 [(0, 1)] exState (by decide)⟩

/-- Inserting under the tolerance guard preserves pairwise separation of the
registry. -/
lemma registerPhase_sep (T : Nat) (eps : α) (s : RunState α)
    (hs : List.Pairwise (fun a b => eps ≤ abs (a - b)) s.local_optima_distances) :
    List.Pairwise (fun a b => eps ≤ abs (a - b))
      (registerPhase T eps s).local_optima_distances := by
  unfold registerPhase
  split_ifs with h1 h2
  · show List.Pairwise _ (s.local_optima_distances ++ [s.current_dist])
    rw [List.pairwise_append]
    refine ⟨hs, by simp, ?_⟩
    intro a ha b hb
    rw [List.mem_singleton] at hb
    subst hb
    have hfar := (shouldRegister_eq_true_iff eps s.current_dist
      s.local_optima_distances).1 h2 a ha
    have habs := le_of_not_lt hfar
    rw [abs_sub_comm] at habs
    exact habs
  · exact hs
  · exact hs

/-- C10: in every reachable state any two registry entries are at least
`1e-6` apart — the registry starts empty and every insertion is guarded by
the tolerance check, so the separation invariant is preserved by every step
(and by `restart`, which does not touch the registry). -/
theorem claim_C10 (dist : List Nat → α) (N T : Nat) (s : RunState α)
    (hs : Reachable dist N T (1 / 1000000 : α) s) :
    List.Pairwise (fun a b => (1 / 1000000 : α) ≤ abs (a - b))
      s.local_optima_distances := by
  induction hs with
  | init perm hp => exact List.Pairwise.nil
  | step picks t ht ih =>
      refine registerPhase_sep T _ (postBatch dist picks t) ?_
      rw [postBatch_registry]
      exact ih
  | reset perm t hp ht ih => exact ih

/-- C10, witness: a concrete reachable state (six frames of the two-city
run, whose registry is `[1]`). -/
theorem claim_C10_witness :
    List.Pairwise (fun a b => (1 / 1000000 : ℚ) ≤ abs (a - b))
      exRun.local_optima_distances :=
  claim_C10 exDist2 2 STUCK_THRESHOLD exRun
    (by
      have h0 : Reachable exDist2 2 STUCK_THRESHOLD (1 / 1000000 : ℚ)
          (initState exDist2 [0, 1]) := Reachable.init [0, 1] (by decide)
      show Reachable exDist2 2 STUCK_THRESHOLD (1 / 1000000 : ℚ)
        (exStep (exStep (exStep (exStep (exStep (exStep (initState exDist2 [0, 1])))))))
      exact Reachable.step exPicks _ (Reachable.step exPicks _ (Reachable.step exPicks _
        (Reachable.step exPicks _ (Reachable.step exPicks _
          (Reachable.step exPicks _ h0))))))

/-! The unit-square scenario (4 cities, `K = 10`, `T = 50`).

The scenario of the spec fixes the cities at `(0,0), (0,1), (1,1), (1,0)`.  All
other configuration matches the script: 10 candidates per frame and stuck
threshold 50.  The "fixed seed" becomes a fixed injected random stream: the
initial permutation `[1,0,2,3]` and the candidate pair `(0,1)` at every
draw. -/

/-- The four corners of the unit square. -/
noncomputable def sqCities : List (ℝ × ℝ) := [(0, 0), (0, 1), (1, 1), (1, 0)]

/-- Euclidean distance between two of the square corners
(`np.linalg.norm(cities[a] - cities[b])`). -/
noncomputable def sqCityDist (a b : Nat) : ℝ :=
  Real.sqrt (((sqCities.getD a (0, 0)).1 - (sqCities.getD b (0, 0)).1) ^ 2 +
    ((sqCities.getD a (0, 0)).2 - (sqCities.getD b (0, 0)).2) ^ 2)

/-- Tour length on the unit-square instance. -/
noncomputable def sqDist : List Nat → ℝ := total_distance sqCityDist

lemma sqCityDist01 : sqCityDist 0 1 = 1 := by
  show Real.sqrt (((0 : ℝ) - 0) ^ 2 + ((0 : ℝ) - 1) ^ 2) = 1
  rw [show ((0 : ℝ) - 0) ^ 2 + ((0 : ℝ) - 1) ^ 2 = 1 by norm_num]
  exact Real.sqrt_one

lemma sqCityDist10 : sqCityDist 1 0 = 1 := by
  show Real.sqrt (((0 : ℝ) - 0) ^ 2 + ((1 : ℝ) - 0) ^ 2) = 1
  rw [show ((0 : ℝ) - 0) ^ 2 + ((1 : ℝ) - 0) ^ 2 = 1 by norm_num]
  exact Real.sqrt_one

lemma sqCityDist12 : sqCityDist 1 2 = 1 := by
  show Real.sqrt (((0 : ℝ) - 1) ^ 2 + ((1 : ℝ) - 1) ^ 2) = 1
  rw [show ((0 : ℝ) - 1) ^ 2 + ((1 : ℝ) - 1) ^ 2 = 1 by norm_num]
  exact Real.sqrt_one

lemma sqCityDist23 : sqCityDist 2 3 = 1 := by
  show Real.sqrt (((1 : ℝ) - 1) ^ 2 + ((1 : ℝ) - 0) ^ 2) = 1
  rw [show ((1 : ℝ) - 1) ^ 2 + ((1 : ℝ) - 0) ^ 2 = 1 by norm_num]
  exact Real.sqrt_one

lemma sqCityDist30 : sqCityDist 3 0 = 1 := by
  show Real.sqrt (((1 : ℝ) - 0) ^ 2 + ((0 : ℝ) - 0) ^ 2) = 1
  rw [show ((1 : ℝ) - 0) ^ 2 + ((0 : ℝ) - 0) ^ 2 = 1 by norm_num]
  exact Real.sqrt_one

lemma sqCityDist02 : sqCityDist 0 2 = Real.sqrt 2 := by
  show Real.sqrt (((0 : ℝ) - 1) ^ 2 + ((0 : ℝ) - 1) ^ 2) = Real.sqrt 2
  rw [show ((0 : ℝ) - 1) ^ 2 + ((0 : ℝ) - 1) ^ 2 = 2 by norm_num]

lemma sqCityDist31 : sqCityDist 3 1 = Real.sqrt 2 := by
  show Real.sqrt (((1 : ℝ) - 0) ^ 2 + ((0 : ℝ) - 1) ^ 2) = Real.sqrt 2
  rw [show ((1 : ℝ) - 0) ^ 2 + ((0 : ℝ) - 1) ^ 2 = 2 by norm_num]

/-- The square tour has length 4 (the optimum). -/
lemma sqDist_opt : sqDist [0, 1, 2, 3] = 4 := by
  show (0 : ℝ) + sqCityDist 0 1 + sqCityDist 1 2 + sqCityDist 2 3 + sqCityDist 3 0 = 4
  rw [sqCityDist01, sqCityDist12, sqCityDist23, sqCityDist30]
  norm_num

/-- The crossing tour `[1,0,2,3]` has length `2 + 2√2`. -/
lemma sqDist_cross : sqDist [1, 0, 2, 3] = 2 + 2 * Real.sqrt 2 := by
  show (0 : ℝ) + sqCityDist 1 0 + sqCityDist 0 2 + sqCityDist 2 3 + sqCityDist 3 1 =
    2 + 2 * Real.sqrt 2
  rw [sqCityDist10, sqCityDist02, sqCityDist23, sqCityDist31]
  ring

lemma one_lt_sqrt_two : (1 : ℝ) < Real.sqrt 2 := by
  have h := Real.sqrt_lt_sqrt (by norm_num : (0 : ℝ) ≤ 1) (by norm_num : (1 : ℝ) < 2)
  rwa [Real.sqrt_one] at h

lemma four_lt_cross : (4 : ℝ) < 2 + 2 * Real.sqrt 2 := by
  have h := one_lt_sqrt_two
  linarith

lemma sq_swap_to : two_opt_swap [1, 0, 2, 3] (0, 1) = [0, 1, 2, 3] := by decide

lemma sq_swap_back : two_opt_swap [0, 1, 2, 3] (0, 1) = [1, 0, 2, 3] := by decide

/-- Frame 1, candidate 1: from the crossing tour, the pick `(0,1)` uncrosses
it, a strict improvement (4 < 2 + 2√2), which also improves the best. -/
lemma sq_eval1 :
    evalCandidate sqDist (initState sqDist [1, 0, 2, 3], false) (0, 1) =
      ({ current := [0, 1, 2, 3], current_dist := 4, best_dist := 4,
         distance_history := [2 + 2 * Real.sqrt 2], iteration := 0,
         stuck_counter := 0, is_global := false,
         local_optima_distances := [] }, true) := by
  have hs0 : initState sqDist [1, 0, 2, 3] =
      { current := [1, 0, 2, 3], current_dist := 2 + 2 * Real.sqrt 2,
        best_dist := 2 + 2 * Real.sqrt 2,
        distance_history := [2 + 2 * Real.sqrt 2], iteration := 0,
        stuck_counter := 0, is_global := false, local_optima_distances := [] } := by
    unfold initState
    rw [sqDist_cross]
  rw [hs0]
  unfold evalCandidate
  dsimp only
  rw [sq_swap_to, sqDist_opt, if_pos four_lt_cross, if_pos four_lt_cross]

/-- From any state sitting on the optimal square tour, every candidate drawn
with the pick `(0,1)` re-crosses the tour and is rejected, so a batch of `n`
such picks only adds `n` to the stuck counter. -/
lemma sq_reject_batch (n : Nat) (s : RunState ℝ) (b : Bool)
    (hc : s.current = [0, 1, 2, 3]) (hd : s.current_dist = 4) :
    List.foldl (evalCandidate sqDist) (s, b) (List.replicate n (0, 1)) =
      ({ s with stuck_counter := s.stuck_counter + n }, b) := by
  have hrej : ∀ p ∈ List.replicate n ((0 : Nat), (1 : Nat)),
      ¬ sqDist (two_opt_swap s.current p) < s.current_dist := by
    intro p hp
    rw [List.eq_of_mem_replicate hp, hc, hd, sq_swap_back, sqDist_cross]
    exact not_lt_of_gt four_lt_cross
  rw [batch_all_rejected sqDist (List.replicate n (0, 1)) s b hrej, List.length_replicate]

/-- Any frame started on the optimal square tour: the batch adds 10 to the
stuck counter and the bookkeeping appends the unchanged distance. -/
lemma sq_frame_stuck (s : RunState ℝ) (hc : s.current = [0, 1, 2, 3])
    (hd : s.current_dist = 4) :
    update sqDist 50 (1 / 1000000 : ℝ) exPicks s =
      registerPhase 50 (1 / 1000000 : ℝ)
        { s with stuck_counter := s.stuck_counter + 10,
                 iteration := s.iteration + 1,
                 distance_history := s.distance_history ++ [s.current_dist] } := by
  unfold update postBatch
  rw [show exPicks = List.replicate 10 (0, 1) from rfl, sq_reject_batch 10 s false hc hd]

/-- A frame on the optimal tour that stays below the stuck threshold changes
only the counter, the iteration and the history. -/
lemma sq_frame_low (s : RunState ℝ) (hc : s.current = [0, 1, 2, 3])
    (hd : s.current_dist = 4) (hlow : ¬ (50 ≤ s.stuck_counter + 10)) :
    update sqDist 50 (1 / 1000000 : ℝ) exPicks s =
      { s with stuck_counter := s.stuck_counter + 10,
               iteration := s.iteration + 1,
               distance_history := s.distance_history ++ [s.current_dist] } := by
  rw [sq_frame_stuck s hc hd]
  exact registerPhase_of_not_stuck 50 (1 / 1000000 : ℝ) _ hlow

/-- The frame that crosses the stuck threshold with an empty registry:
classified global-so-far, and the distance is registered. -/
lemma sq_frame_cross (s : RunState ℝ) (hc : s.current = [0, 1, 2, 3])
    (hd : s.current_dist = 4) (hreg : s.local_optima_distances = [])
    (hstuck : 50 ≤ s.stuck_counter + 10) :
    update sqDist 50 (1 / 1000000 : ℝ) exPicks s =
      { s with stuck_counter := s.stuck_counter + 10,
               iteration := s.iteration + 1,
               distance_history := s.distance_history ++ [s.current_dist],
               is_global := true,
               local_optima_distances := [s.current_dist] } := by
  rw [sq_frame_stuck s hc hd]
  unfold registerPhase
  dsimp only
  rw [hreg, if_pos hstuck,
    if_pos (show shouldRegister (1 / 1000000 : ℝ) s.current_dist ([] : List ℝ) = true
      from rfl)]
  dsimp only [globalCheck]
  rw [List.nil_append]

/-- A stuck frame after the optimum is already registered: the strict
comparison against `min(registry)` now fails, so `is_global` flips to
`false`, and the tolerance check blocks re-registration. -/
lemma sq_frame_post (s : RunState ℝ) (hc : s.current = [0, 1, 2, 3])
    (hd : s.current_dist = 4) (hreg : s.local_optima_distances = [(4 : ℝ)])
    (hstuck : 50 ≤ s.stuck_counter + 10) :
    update sqDist 50 (1 / 1000000 : ℝ) exPicks s =
      { s with stuck_counter := s.stuck_counter + 10,
               iteration := s.iteration + 1,
               distance_history := s.distance_history ++ [s.current_dist],
               is_global := false } := by
  rw [sq_frame_stuck s hc hd]
  unfold registerPhase
  dsimp only
  rw [hd, hreg, if_pos hstuck]
  have hsr : shouldRegister (1 / 1000000 : ℝ) (4 : ℝ) [(4 : ℝ)] = false := by
    unfold shouldRegister
    simp
  have hgc : globalCheck (4 : ℝ) [(4 : ℝ)] = false := by
    unfold globalCheck
    simp
  rw [hsr, hgc]
  simp

/-- Iterating `update` one more time steps from the already-iterated state. -/
lemma stepN_succ (dist : List Nat → α) (T : Nat) (eps : α) (picks : List (Nat × Nat)) :
    ∀ (n : Nat) (s : RunState α),
      stepN dist T eps picks (n + 1) s =
        update dist T eps picks (stepN dist T eps picks n s) := by
  intro n
  induction n with
  | zero => intro s; rfl
  | succ m ih =>
      intro s
      show stepN dist T eps picks (m + 1) (update dist T eps picks s) = _
      rw [ih (update dist T eps picks s)]
      rfl

/-- The initial state of the scenario: the crossing tour. -/
noncomputable def sqInit : RunState ℝ := initState sqDist [1, 0, 2, 3]

/-- The scenario after `n` frames (`K = 10` candidates per frame, pick
`(0,1)` each time, `T = 50`, tolerance `1e-6`). -/
noncomputable def sqRun (n : Nat) : RunState ℝ :=
  stepN sqDist 50 (1 / 1000000 : ℝ) exPicks n sqInit

lemma sqRun_succ (n : Nat) :
    sqRun (n + 1) = update sqDist 50 (1 / 1000000 : ℝ) exPicks (sqRun n) :=
  stepN_succ sqDist 50 (1 / 1000000 : ℝ) exPicks n sqInit

/-- Frame 1: the first candidate uncrosses the tour (distance 4), the other
nine are rejected. -/
lemma sq_run1 :
    sqRun 1 =
      { current := [0, 1, 2, 3], current_dist := 4, best_dist := 4,
        distance_history := [2 + 2 * Real.sqrt 2, 4], iteration := 1,
        stuck_counter := 9, is_global := false, local_optima_distances := [] } := by
  have h1 : sqRun 1 = update sqDist 50 (1 / 1000000 : ℝ) exPicks sqInit := sqRun_succ 0
  rw [h1]
  unfold update postBatch sqInit
  rw [show exPicks = (0, 1) :: List.replicate 9 (0, 1) from rfl, List.foldl_cons, sq_eval1,
    sq_reject_batch 9 _ true rfl rfl]
  dsimp only
  have h9 : ¬ ((50 : Nat) ≤ 0 + 9) := by norm_num
  rw [registerPhase_of_not_stuck 50 (1 / 1000000 : ℝ) _ h9]
  norm_num

lemma sq_run2 :
    sqRun 2 =
      { current := [0, 1, 2, 3], current_dist := 4, best_dist := 4,
        distance_history := [2 + 2 * Real.sqrt 2, 4, 4], iteration := 2,
        stuck_counter := 19, is_global := false, local_optima_distances := [] } := by
  have h : sqRun 2 = update sqDist 50 (1 / 1000000 : ℝ) exPicks (sqRun 1) :=
    sqRun_succ 1
  rw [h, sq_run1,
    sq_frame_low _ rfl rfl (by norm_num)]
  norm_num [List.cons_append, List.singleton_append]

lemma sq_run3 :
    sqRun 3 =
      { current := [0, 1, 2, 3], current_dist := 4, best_dist := 4,
        distance_history := [2 + 2 * Real.sqrt 2, 4, 4, 4], iteration := 3,
        stuck_counter := 29, is_global := false, local_optima_distances := [] } := by
  have h : sqRun 3 = update sqDist 50 (1 / 1000000 : ℝ) exPicks (sqRun 2) :=
    sqRun_succ 2
  rw [h, sq_run2,
    sq_frame_low _ rfl rfl (by norm_num)]
  norm_num [List.cons_append, List.singleton_append]

lemma sq_run4 :
    sqRun 4 =
      { current := [0, 1, 2, 3], current_dist := 4, best_dist := 4,
        distance_history := [2 + 2 * Real.sqrt 2, 4, 4, 4, 4], iteration := 4,
        stuck_counter := 39, is_global := false, local_optima_distances := [] } := by
  have h : sqRun 4 = update sqDist 50 (1 / 1000000 : ℝ) exPicks (sqRun 3) :=
    sqRun_succ 3
  rw [h, sq_run3,
    sq_frame_low _ rfl rfl (by norm_num)]
  norm_num [List.cons_append, List.singleton_append]

lemma sq_run5 :
    sqRun 5 =
      { current := [0, 1, 2, 3], current_dist := 4, best_dist := 4,
        distance_history := [2 + 2 * Real.sqrt 2, 4, 4, 4, 4, 4], iteration := 5,
        stuck_counter := 49, is_global := false, local_optima_distances := [] } := by
  have h : sqRun 5 = update sqDist 50 (1 / 1000000 : ℝ) exPicks (sqRun 4) :=
    sqRun_succ 4
  rw [h, sq_run4,
    sq_frame_low _ rfl rfl (by norm_num)]
  norm_num [List.cons_append, List.singleton_append]

/-- Frame 6 crosses the stuck threshold (59 ≥ 50): with the registry still
empty the state is classified global-so-far and distance 4 is registered. -/
lemma sq_run6 :
    sqRun 6 =
      { current := [0, 1, 2, 3], current_dist := 4, best_dist := 4,
        distance_history := [2 + 2 * Real.sqrt 2, 4, 4, 4, 4, 4, 4], iteration := 6,
        stuck_counter := 59, is_global := true, local_optima_distances := [4] } := by
  have h : sqRun 6 = update sqDist 50 (1 / 1000000 : ℝ) exPicks (sqRun 5) :=
    sqRun_succ 5
  rw [h, sq_run5,
    sq_frame_cross _ rfl rfl rfl (by norm_num)]
  norm_num [List.cons_append, List.singleton_append]

/-- Frame 7: still stuck at distance 4, but 4 is no longer strictly below
`min(registry) = 4`, so the state is re-classified as a mere local
optimum. -/
lemma sq_run7 :
    sqRun 7 =
      { current := [0, 1, 2, 3], current_dist := 4, best_dist := 4,
        distance_history := [2 + 2 * Real.sqrt 2, 4, 4, 4, 4, 4, 4, 4], iteration := 7,
        stuck_counter := 69, is_global := false, local_optima_distances := [4] } := by
  have h : sqRun 7 = update sqDist 50 (1 / 1000000 : ℝ) exPicks (sqRun 6) :=
    sqRun_succ 6
  rw [h, sq_run6,
    sq_frame_post _ rfl rfl rfl (by norm_num)]
  norm_num [List.cons_append, List.singleton_append]

lemma sq_status6 : get_status 50 (sqRun 6) = Status.globalOpt := by
  rw [sq_run6]
  unfold get_status
  norm_num

/-- From frame 7 on the run is frozen on the optimal tour: distance 4,
registry `[4]`, stuck counter at least 50, and `is_global = false`. -/
lemma sq_post_inv : ∀ n : Nat,
    (sqRun (7 + n)).current = [0, 1, 2, 3] ∧
    (sqRun (7 + n)).current_dist = 4 ∧
    (sqRun (7 + n)).local_optima_distances = [(4 : ℝ)] ∧
    50 ≤ (sqRun (7 + n)).stuck_counter ∧
    (sqRun (7 + n)).is_global = false := by
  intro n
  induction n with
  | zero =>
      simp only [Nat.add_zero]
      rw [sq_run7]
      exact ⟨rfl, rfl, rfl, by norm_num, rfl⟩
  | succ m ih =>
      obtain ⟨hc, hd, hreg, hstuck, hig⟩ := ih
      have hs : sqRun (7 + (m + 1)) =
          update sqDist 50 (1 / 1000000 : ℝ) exPicks (sqRun (7 + m)) :=
        sqRun_succ (7 + m)
      rw [hs, sq_frame_post (sqRun (7 + m)) hc hd hreg (by omega)]
      dsimp only
      exact ⟨hc, hd, hreg, by omega, rfl⟩

lemma sq_status_post (n : Nat) : get_status 50 (sqRun (7 + n)) = Status.localOpt := by
  obtain ⟨hc, hd, hreg, hstuck, hig⟩ := sq_post_inv n
  unfold get_status
  rw [if_neg (by omega), if_neg (by omega), hig, if_neg Bool.false_ne_true]

/-- C2, counterexample: in the unit-square scenario (fixed injected random
stream), the run reaches `current_dist = 4.0`, and when the stuck counter
first passes `T = 50` (frame 6, counter 59) the classifier reports
`GlobalOptimum` with registry size 1 — but on the very next step, still
stuck at that same distance, it reports `LocalOptimum`, refuting the claim
that it continues to report `GlobalOptimum` on every subsequent step. -/
theorem claim_C2_counterexample :
    (sqRun 6).current_dist = 4 ∧
    get_status 50 (sqRun 6) = Status.globalOpt ∧
    (sqRun 6).local_optima_distances.length = 1 ∧
    (sqRun 7).current_dist = 4 ∧
    50 ≤ (sqRun 7).stuck_counter ∧
    get_status 50 (sqRun 7) = Status.localOpt := by
  refine ⟨by rw [sq_run6], sq_status6, by rw [sq_run6]; rfl, by rw [sq_run7],
    by rw [sq_run7]; norm_num, ?_⟩
  exact sq_status_post 0

/-- C2 (amended): with `K = 10`, `T = 50` and a fixed injected random
stream, the 4-city unit-square run starts strictly above 4.0, reaches
`current_dist = 4.0`, and once `stuck_counter ≥ T` it reports
`GlobalOptimum` with registry exactly `[4.0]`; but on every subsequent step
while stuck at that distance the classifier reports `LocalOptimum` (not
`GlobalOptimum`), because `current_dist` is no longer strictly below the
minimum of the registry that now contains it. -/
theorem claim_C2 :
    (initState sqDist [1, 0, 2, 3]).current_dist ≠ 4 ∧
    (sqRun 6).current_dist = 4 ∧
    50 ≤ (sqRun 6).stuck_counter ∧
    get_status 50 (sqRun 6) = Status.globalOpt ∧
    (sqRun 6).local_optima_distances = [4] ∧
    ∀ n : Nat, get_status 50 (sqRun (7 + n)) = Status.localOpt ∧
      (sqRun (7 + n)).current_dist = 4 := by
  refine ⟨?_, by rw [sq_run6], by rw [sq_run6]; norm_num, sq_status6, by rw [sq_run6],
    fun n => ⟨sq_status_post n, (sq_post_inv n).2.1⟩⟩
  show sqDist [1, 0, 2, 3] ≠ 4
  rw [sqDist_cross]
  exact ne_of_gt four_lt_cross

end TSPHill
